import Mathlib

/-!
Shallow embedding of `src/cometblue/gatt/device_manager.py`.

The module adapts the asynchronous bleak BLE transport into a synchronous,
callback-driven API.  We embed the observable behaviour of the wrappers as
pure state-passing functions:

* transport outcomes (device lookup, connect, characteristic/descriptor
  read/write results, the client's `is_connected` flag) are supplied by an
  environment record `Env` — they are decided by the radio, not the code;
* every transport submission through `run_blocking` and every lifecycle hook
  invocation is recorded as an `Event` in a trace carried by the state, so
  ordering and multiplicity of hook dispatch are provable facts;
* `@cached_property` attributes (`_bleak_device`, `_bleak_client`) are
  modelled as explicit `Option`-valued caches inside the state: `none`
  means "not yet computed", `some r` means "body already ran, result `r`";
* the module-global `pending_devices` counter is a field of the state;
* Python exceptions are modelled with `Except`: a wrpapper that catches all
  exceptions returns a plain value, a wrapper that lets them propagate
  returns `Except PyErr _`.

Diagnostic `print(...)` calls in the source are not modelled (pure logging).
-/

namespace CometBlue

/-- Python exception values relevant to this module: `AttributeError` raised
by attribute access on `None`, and opaque failures raised by bleak transport
operations. -/
inductive PyErr where
  | attributeError (attr : String)
  | bleakError (code : Nat)
  deriving DecidableEq, Repr

/-- The argument passed to `Device.connect_failed`: either a caught exception
(`except Exception as e`) or the sentinel string `"No bleak client"`. -/
inductive ErrArg where
  | exn (e : PyErr)
  | str (s : String)
  deriving DecidableEq, Repr

/-- Observable events: transport submissions through `run_blocking` (the
`...Call` constructors) and hook-method invocations on the owning `Device`.
There is no constructor for `characteristic_read_value_failed` or
`descriptor_read_value_failed` because no code path in the source invokes
those hooks. -/
inductive Event where
  | findDeviceCall (address : String)
  | connectCall
  | readCharCall (uuid : String)
  | writeCharCall (uuid : String)
  | readDescCall
  | connect_succeeded
  | connect_failed (error : ErrArg)
  | services_resolved
  | characteristic_value_updated (uuid : String) (value : List Nat)
  | characteristic_write_value_succeeded (uuid : String)
  | characteristic_write_value_failed (uuid : String) (error : PyErr)
  deriving DecidableEq, Repr

/-- `true` exactly on the hook-invocation events; the `...Call` events are
transport I/O submissions, not hooks. -/
def Event.isHook : Event → Bool
  | .findDeviceCall _ => false
  | .connectCall => false
  | .readCharCall _ => false
  | .writeCharCall _ => false
  | .readDescCall => false
  | _ => true

/-- The transport's resolved device handle (`bleak.backends.device.BLEDevice`):
only its `name` and `address` attributes are read by the source. -/
structure BleakDevice where
  name : String
  address : String
  deriving DecidableEq, Repr

/-- `bleak.BleakClient`, constructed from a resolved `BleakDevice`
(`BleakClient(self._bleak_device)`). -/
structure BleakClient where
  device : BleakDevice
  deriving DecidableEq, Repr

/-- Transport-decided outcomes of the suspending operations the wrappers
submit through `run_blocking`.  `findResult` models
`BleakScanner.find_device_by_address` (returns `None` when not found);
the `Except` fields model operations that either complete or raise. -/
structure Env where
  findResult : String → Option BleakDevice
  connectResult : Except PyErr Unit
  isConnected : Bool
  readCharResult : Except PyErr (List Nat)
  writeCharResult : Except PyErr Unit
  readDescResult : Except PyErr (List Nat)

/-- Mutable state threaded through the device-side operations: the
module-global `pending_devices` counter, the trace of observed events, and
the two `@cached_property` caches of `Device` (`none` = property body not
yet executed). -/
structure PyState where
  pending_devices : Int
  trace : List Event
  bleakDeviceCache : Option (Option BleakDevice)
  bleakClientCache : Option (Option BleakClient)
  deriving DecidableEq, Repr

/-- Append one observed event to the trace. -/
def emit (s : PyState) (e : Event) : PyState :=
  { s with trace := s.trace ++ [e] }

/-- The per-instance attributes of `Device` that the embedded operations
read (`self.mac_address`). -/
structure DeviceInst where
  mac_address : String
  deriving DecidableEq, Repr

/-- `Device.__init__`: stores the MAC address and increments the
module-global counter (`pending_devices = pending_devices + 1`); the
diagnostic print is not modelled. -/
def Device.init (mac_address : String) (s : PyState) : DeviceInst × PyState :=
  (⟨mac_address⟩, { s with pending_devices := s.pending_devices + 1 })

/-- `Device._bleak_device` (`@cached_property`): on first access submits
`BleakScanner.find_device_by_address(self.mac_address)` through
`run_blocking`, decrements `pending_devices`
(`pending_devices = pending_devices - 1`), and caches the result (which may
be `None` when the lookup found nothing); every later access returns the
cached result without running the body again. -/
def Device.bleakDevice (env : Env) (dev : DeviceInst) (s : PyState) :
    Option BleakDevice × PyState :=
  match s.bleakDeviceCache with
  | some cached => (cached, s)
  | none =>
      let s1 := emit s (.findDeviceCall dev.mac_address)
      let device := env.findResult dev.mac_address
      (device, { s1 with
                   pending_devices := s1.pending_devices - 1,
                   bleakDeviceCache := some device })

/-- `Device._bleak_client` (`@cached_property`): `BleakClient(self._bleak_device)`
if the resolved device handle is truthy, else `None`; the result is cached. -/
def Device.bleakClient (env : Env) (dev : DeviceInst) (s : PyState) :
    Option BleakClient × PyState :=
  match s.bleakClientCache with
  | some cached => (cached, s)
  | none =>
      let r := Device.bleakDevice env dev s
      let client := r.1.map (fun d => ⟨d⟩)
      (client, { r.2 with bleakClientCache := some client })

/-- `Device.connect`: `if self._bleak_client:` try
`run_blocking(self._bleak_client.connect())`; on an exception invoke
`connect_failed(e)`, in the `else` clause of the `try` invoke
`connect_succeeded()` then `services_resolved()`; with no client invoke
`connect_failed("No bleak client")`.  All exceptions of the blocking call
are caught, so the method always returns. -/
def Device.connect (env : Env) (dev : DeviceInst) (s : PyState) : PyState :=
  match Device.bleakClient env dev s with
  | (some _, s1) =>
      let s2 := emit s1 .connectCall
      match env.connectResult with
      | .error e => emit s2 (.connect_failed (.exn e))
      | .ok _ => emit (emit s2 .connect_succeeded) .services_resolved
  | (none, s1) => emit s1 (.connect_failed (.str "No bleak client"))

/-- `Device.is_connected`: `self._bleak_client and self._bleak_client.is_connected`.
When the client is `None`, Python returns the falsy `None`, modelled as
`false`; otherwise the client's transport-decided `is_connected` flag. -/
def Device.is_connected (env : Env) (dev : DeviceInst) (s : PyState) :
    Bool × PyState :=
  match Device.bleakClient env dev s with
  | (some _, s1) => (env.isConnected, s1)
  | (none, s1) => (false, s1)

/-- The per-instance attributes of `Characteristic` the embedding needs:
its UUID, used to identify which characteristic a hook was invoked with. -/
structure CharacteristicInst where
  uuid : String
  deriving DecidableEq, Repr

/-- `Characteristic.read_value`: `value = None`; inside `try`, submit
`read_gatt_char` through `run_blocking` and on success invoke the owning
device's `characteristic_value_updated(self, value)`; `except Exception:
pass` swallows any failure; `return value`. -/
def Characteristic.read_value (env : Env) (ch : CharacteristicInst)
    (s : PyState) : Option (List Nat) × PyState :=
  let s1 := emit s (.readCharCall ch.uuid)
  match env.readCharResult with
  | .ok v => (some v, emit s1 (.characteristic_value_updated ch.uuid v))
  | .error _ => (none, s1)

/-- `Characteristic.write_value`: `result = None`; inside `try`, submit
`write_gatt_char` through `run_blocking` and on success invoke
`characteristic_write_value_succeeded(self)`; `except Exception as ex`
invokes `characteristic_write_value_failed(self, ex)`; `return result`. -/
def Characteristic.write_value (env : Env) (ch : CharacteristicInst)
    (s : PyState) : Option Unit × PyState :=
  let s1 := emit s (.writeCharCall ch.uuid)
  match env.writeCharResult with
  | .ok u => (some u, emit s1 (.characteristic_write_value_succeeded ch.uuid))
  | .error e => (none, emit s1 (.characteristic_write_value_failed ch.uuid e))

/-- `Descriptor.read_value`: `return run_blocking(self._bleak_client.read_gatt_descriptor(...))`
with no `try`/`except`, so `run_blocking` re-raising the operation's failure
propagates it to the caller, and no hook is dispatched on either outcome. -/
def Descriptor.read_value (env : Env) (s : PyState) :
    Except PyErr (List Nat) × PyState :=
  let s1 := emit s .readDescCall
  match env.readDescResult with
  | .ok v => (.ok v, s1)
  | .error e => (.error e, s1)

/-- The `DeviceManager._devices` registry: a Python `dict[str, Device]` in
insertion order.  Values are `Option DeviceInst` because
`_discovery_callback` stores whatever `make_device` returns, which may be
`None`. -/
abbrev Registry := List (String × Option DeviceInst)

/-- `device.address in self._devices`: dict key-membership test. -/
def Registry.containsKey (reg : Registry) (address : String) : Bool :=
  reg.any (fun p => p.1 == address)

/-- The registry keys are pairwise distinct (Python dict invariant). -/
def Registry.keysUnique (reg : Registry) : Prop :=
  (reg.map Prod.fst).Nodup

/-- Base `DeviceManager.make_device`: always constructs
`Device(mac_address=mac_address, manager=self)`; per its docstring,
subclasses return `None` for devices that shall not be supported.  The
registry model tracks the constructed instance; the counter side effect of
`Device.__init__` is modelled separately by `Device.init`. -/
def DeviceManager.make_device (mac_address : String) : Option DeviceInst :=
  some ⟨mac_address⟩

/-- `DeviceManager._discovery_callback` (registry effect), parametrised by
the possibly-overridden factory `mk`:
`if device.address not in self._devices:
self._devices[device.address] = self.make_device(device.address)`.
Note the assignment is unconditional on the factory's result: a `None`
result is stored under the address. -/
def DeviceManager.discovery_callback (mk : String → Option DeviceInst)
    (address : String) (reg : Registry) : Registry :=
  if Registry.containsKey reg address then reg
  else reg ++ [(address, mk address)]

/-- `DeviceManager.devices`: `return self._devices.values()`. -/
def DeviceManager.devicesValues (reg : Registry) : List (Option DeviceInst) :=
  reg.map Prod.snd

/-- Fold a sequence of discovery-callback invocations over the registry. -/
def processCallbacks (mk : String → Option DeviceInst) (addrs : List String)
    (reg : Registry) : Registry :=
  addrs.foldl (fun r a => DeviceManager.discovery_callback mk a r) reg

/-- The per-instance attributes of `DeviceManager` (`self.adapter_name`,
set by `__init__`).  The `_devices` registry is deliberately NOT a field
here: in the source it is a class attribute, assigned once on the class body
and only ever mutated in place by item assignment, hence shared by all
instances. -/
structure DeviceManagerInst where
  adapter_name : String
  deriving DecidableEq, Repr

/-- Class-level state of `DeviceManager`, shared by every instance: the
`_devices` class attribute. -/
structure DeviceManagerClassState where
  devices : Registry
  deriving DecidableEq, Repr

/-- `DeviceManager.devices` as invoked on an instance: reads the class-level
registry; the instance contributes nothing. -/
def DeviceManager.devices (_self : DeviceManagerInst)
    (cs : DeviceManagerClassState) : List (Option DeviceInst) :=
  DeviceManager.devicesValues cs.devices

/-- `DeviceManager._discovery_callback` as invoked on an instance:
item-assigns into the class-level `_devices` dict, mutating the shared
class state. -/
def DeviceManager.discoveryCallbackOn (_self : DeviceManagerInst)
    (mk : String → Option DeviceInst) (address : String)
    (cs : DeviceManagerClassState) : DeviceManagerClassState :=
  ⟨DeviceManager.discovery_callback mk address cs.devices⟩

/-- Discovery-side per-instance state of `DeviceManager`:
`_stop_scanning_event` (an `asyncio.Event`, modelled by its is-set flag,
`none` = attribute is `None`) and `_scanner_task` (`none` = `None`). -/
structure MgrScanState where
  stopScanningEvent : Option Bool
  scannerTask : Option Unit
  deriving DecidableEq, Repr

/-- `DeviceManager._stop_discovery`: `self._stop_scanning_event.set()` —
when the attribute is `None` this raises
`AttributeError` (`None` has no attribute `set`); the following
`_stop_scanning_event = None` binds a local variable, so the instance
attribute is left set. -/
def DeviceManager.stopDiscoveryCoro (st : MgrScanState) :
    Except PyErr Unit × MgrScanState :=
  match st.stopScanningEvent with
  | none => (.error (.attributeError "set"), st)
  | some _ => (.ok (), { st with stopScanningEvent := some true })

/-- `DeviceManager.stop_discovery`: `run_blocking(self._stop_discovery())`
re-raises any failure of the coroutine to the caller; then
`self._scanner_task.result()` runs inside `try`/`except Exception` whose
handler only logs (this catches both a scan-task failure and the
`AttributeError` from `None.result()` when no task exists); finally
`self._scanner_task = None`.  `outcome` is the scan task's result when one
exists; it is only logged, never surfaced. -/
def DeviceManager.stop_discovery (_outcome : Except PyErr Unit)
    (st : MgrScanState) : Except PyErr Unit × MgrScanState :=
  match DeviceManager.stopDiscoveryCoro st with
  | (.error e, st1) => (.error e, st1)
  | (.ok _, st1) => (.ok (), { st1 with scannerTask := none })

/-! Concrete instances used by the evaluation witnesses. -/

/-- A concrete device instance. -/
def devW : DeviceInst := ⟨"AA:BB:CC:DD:EE:FF"⟩

/-- A concrete resolved transport handle for `devW`. -/
def bdW : BleakDevice := ⟨"Comet Blue", "AA:BB:CC:DD:EE:FF"⟩

/-- A concrete characteristic. -/
def chW : CharacteristicInst := ⟨"47e9ee2b-47e9-11e4-8939-164230d1df67"⟩

/-- Environment where every transport operation succeeds and the lookup
finds `bdW`. -/
def envOkW : Env :=
  { findResult := fun _ => some bdW
    connectResult := .ok ()
    isConnected := true
    readCharResult := .ok [1, 2]
    writeCharResult := .ok ()
    readDescResult := .ok [7] }

/-- Environment where the lookup finds nothing and every transport
operation fails. -/
def envErrW : Env :=
  { findResult := fun _ => none
    connectResult := .error (.bleakError 11)
    isConnected := false
    readCharResult := .error (.bleakError 12)
    writeCharResult := .error (.bleakError 13)
    readDescResult := .error (.bleakError 14) }

/-- A fresh state: one pending device, empty trace, both caches cold. -/
def s0W : PyState :=
  { pending_devices := 1
    trace := []
    bleakDeviceCache := none
    bleakClientCache := none }

/-- The state reached from `s0W` by resolving the client under `envOkW`. -/
def s1W : PyState :=
  { pending_devices := 0
    trace := [.findDeviceCall "AA:BB:CC:DD:EE:FF"]
    bleakDeviceCache := some (some bdW)
    bleakClientCache := some (some ⟨bdW⟩) }

/-! Theorems settling the claims. -/

/-- C1: for a `Device` whose transport handle is present (its
`_bleak_client` resolves to a client), if the blocking `connect()` call
completes without failure then `Device.connect` appends to the trace exactly
`connectCall`, then `connect_succeeded`, then `services_resolved`: the
succeeded hook fires strictly before the resolution hook, and both appear
after the connect submission, so neither hook fires before the connect call
completes. -/
theorem connect_success_hook_order (env : Env) (dev : DeviceInst)
    (s s1 : PyState) (c : BleakClient)
    (hclient : Device.bleakClient env dev s = (some c, s1))
    (hok : env.connectResult = .ok ()) :
    Device.connect env dev s =
      { s1 with trace := s1.trace ++
          [.connectCall, .connect_succeeded, .services_resolved] } := by
  simp [Device.connect, hclient, hok, emit]

/-- Witness for C1 at a concrete device, environment and fresh state. -/
theorem connect_success_hook_order_witness :
    Device.connect envOkW devW s0W =
      { s1W with trace := s1W.trace ++
          [.connectCall, .connect_succeeded, .services_resolved] } :=
  connect_success_hook_order envOkW devW s0W s1W ⟨bdW⟩ rfl rfl

/-- C2: for a fresh `Device` whose handle lookup returns not-found,
`Device.connect` appends exactly the lookup submission and one
`connect_failed` hook carrying the sentinel `"No bleak client"` — so
`connect_failed` is invoked exactly once, `connect_succeeded` never, and no
`connectCall` (connect I/O) is submitted — and `is_connected` reports
`false` both before and after the call. -/
theorem connect_no_handle_spec (env : Env) (dev : DeviceInst) (s : PyState)
    (hd : s.bleakDeviceCache = none) (hc : s.bleakClientCache = none)
    (hfind : env.findResult dev.mac_address = none) :
    Device.connect env dev s =
      { s with pending_devices := s.pending_devices - 1,
               trace := s.trace ++
                 [.findDeviceCall dev.mac_address,
                  .connect_failed (.str "No bleak client")],
               bleakDeviceCache := some none,
               bleakClientCache := some none } ∧
    (Device.is_connected env dev s).1 = false ∧
    (Device.is_connected env dev (Device.connect env dev s)).1 = false := by
  refine ⟨?_, ?_, ?_⟩ <;>
    simp [Device.connect, Device.is_connected, Device.bleakClient,
          Device.bleakDevice, hd, hc, hfind, emit]

/-- Witness for C2 at a concrete device, environment and fresh state. -/
theorem connect_no_handle_spec_witness :
    Device.connect envErrW devW s0W =
      { s0W with pending_devices := s0W.pending_devices - 1,
                 trace := s0W.trace ++
                   [.findDeviceCall devW.mac_address,
                    .connect_failed (.str "No bleak client")],
                 bleakDeviceCache := some none,
                 bleakClientCache := some none } ∧
    (Device.is_connected envErrW devW s0W).1 = false ∧
    (Device.is_connected envErrW devW (Device.connect envErrW devW s0W)).1
      = false :=
  connect_no_handle_spec envErrW devW s0W rfl rfl rfl

/-- C4: `Characteristic.write_value` — when the blocking write succeeds it
appends exactly one `characteristic_write_value_succeeded` hook (and never
raises: the function is total with a plain return value); when the blocking
write fails with `e` it appends exactly one
`characteristic_write_value_failed` hook carrying `e`, returns `none`, and
does not raise to the caller. -/
theorem write_value_spec (env : Env) (ch : CharacteristicInst) (s : PyState) :
    (∀ u, env.writeCharResult = .ok u →
      Characteristic.write_value env ch s =
        (some u, { s with trace := s.trace ++
          [.writeCharCall ch.uuid,
           .characteristic_write_value_succeeded ch.uuid] })) ∧
    (∀ e, env.writeCharResult = .error e →
      Characteristic.write_value env ch s =
        (none, { s with trace := s.trace ++
          [.writeCharCall ch.uuid,
           .characteristic_write_value_failed ch.uuid e] })) := by
  constructor <;> intro x hx <;>
    simp [Characteristic.write_value, hx, emit]

/-- Witness for C4: both outcomes evaluated at concrete inputs. -/
theorem write_value_spec_witness :
    Characteristic.write_value envOkW chW s0W =
      (some (), { s0W with trace := s0W.trace ++
        [.writeCharCall chW.uuid,
         .characteristic_write_value_succeeded chW.uuid] }) ∧
    Characteristic.write_value envErrW chW s0W =
      (none, { s0W with trace := s0W.trace ++
        [.writeCharCall chW.uuid,
         .characteristic_write_value_failed chW.uuid (.bleakError 13)] }) :=
  ⟨(write_value_spec envOkW chW s0W).1 () rfl,
   (write_value_spec envErrW chW s0W).2 (.bleakError 13) rfl⟩

/-- C5: `Characteristic.read_value` — on a successful blocking read it
invokes the owning device's `characteristic_value_updated` hook with the
characteristic and the read value and returns that value; on a failed read
it appends no hook at all (in particular there is no
`characteristic_read_value_failed` dispatch anywhere in the model), returns
`none`, and raises nothing (the function is total with a plain return
value). -/
theorem read_value_spec (env : Env) (ch : CharacteristicInst) (s : PyState) :
    (∀ v, env.readCharResult = .ok v →
      Characteristic.read_value env ch s =
        (some v, { s with trace := s.trace ++
          [.readCharCall ch.uuid,
           .characteristic_value_updated ch.uuid v] })) ∧
    (∀ e, env.readCharResult = .error e →
      Characteristic.read_value env ch s =
        (none, { s with trace := s.trace ++ [.readCharCall ch.uuid] })) := by
  constructor <;> intro x hx <;>
    simp [Characteristic.read_value, hx, emit]

/-- Witness for C5: both outcomes evaluated at concrete inputs. -/
theorem read_value_spec_witness :
    Characteristic.read_value envOkW chW s0W =
      (some [1, 2], { s0W with trace := s0W.trace ++
        [.readCharCall chW.uuid,
         .characteristic_value_updated chW.uuid [1, 2]] }) ∧
    Characteristic.read_value envErrW chW s0W =
      (none, { s0W with trace := s0W.trace ++ [.readCharCall chW.uuid] }) :=
  ⟨(read_value_spec envOkW chW s0W).1 [1, 2] rfl,
   (read_value_spec envErrW chW s0W).2 (.bleakError 12) rfl⟩

/-- C6: `Descriptor.read_value` — on success it returns the read value; on a
failed blocking read the failure propagates to the caller as a raised
failure (`Except.error`); in both cases the only appended event is the read
submission itself, which is not a hook, so no hook (in particular not
`descriptor_read_value_failed`) is dispatched. -/
theorem descriptor_read_value_spec (env : Env) (s : PyState) :
    (∀ v, env.readDescResult = .ok v →
      Descriptor.read_value env s =
        (.ok v, { s with trace := s.trace ++ [.readDescCall] })) ∧
    (∀ e, env.readDescResult = .error e →
      Descriptor.read_value env s =
        (.error e, { s with trace := s.trace ++ [.readDescCall] })) ∧
    Event.isHook .readDescCall = false := by
  refine ⟨?_, ?_, rfl⟩ <;> intro x hx <;>
    simp [Descriptor.read_value, hx, emit]

/-- Witness for C6: both outcomes evaluated at concrete inputs. -/
theorem descriptor_read_value_spec_witness :
    Descriptor.read_value envOkW s0W =
      (.ok [7], { s0W with trace := s0W.trace ++ [.readDescCall] }) ∧
    Descriptor.read_value envErrW s0W =
      (.error (.bleakError 14),
       { s0W with trace := s0W.trace ++ [.readDescCall] }) :=
  ⟨(descriptor_read_value_spec envOkW s0W).1 [7] rfl,
   (descriptor_read_value_spec envErrW s0W).2.1 (.bleakError 14) rfl⟩

/-- Key membership in the registry, as list membership of the key column. -/
theorem containsKey_iff (reg : Registry) (a : String) :
    Registry.containsKey reg a = true ↔ a ∈ reg.map Prod.fst := by
  simp [Registry.containsKey, List.any_eq_true, List.mem_map]

/-- One discovery callback preserves uniqueness of the registry keys. -/
theorem keysUnique_callback (mk : String → Option DeviceInst) (a : String)
    (reg : Registry) (h : Registry.keysUnique reg) :
    Registry.keysUnique (DeviceManager.discovery_callback mk a reg) := by
  unfold DeviceManager.discovery_callback
  by_cases hc : Registry.containsKey reg a = true
  · simp [hc, h]
  · have ha : a ∉ reg.map Prod.fst := fun hm => hc ((containsKey_iff reg a).2 hm)
    simp only [hc, Bool.false_eq_true, if_false]
    show ((reg ++ [(a, mk a)]).map Prod.fst).Nodup
    simp only [List.map_append, List.map_cons, List.map_nil]
    rw [← List.concat_eq_append]
    exact List.Nodup.concat ha h

/-- Any sequence of discovery callbacks preserves key uniqueness. -/
theorem keysUnique_process (mk : String → Option DeviceInst)
    (addrs : List String) :
    ∀ reg, Registry.keysUnique reg →
      Registry.keysUnique (processCallbacks mk addrs reg) := by
  induction addrs with
  | nil => intro reg h; simpa [processCallbacks] using h
  | cons a as ih =>
      intro reg h
      exact ih (DeviceManager.discovery_callback mk a reg)
        (keysUnique_callback mk a reg h)

/-- C7: the registry never holds two entries for one address.  First, a
discovery callback for an address already present leaves the registry
unchanged (no new entry, no replacement, and the factory is not consulted —
the `then` branch returns the registry as is).  Second, starting from any
registry with pairwise-distinct keys, every sequence of discovery callbacks
keeps the keys pairwise distinct, so address-to-device stays a function
with unique keys. -/
theorem discovery_dedup_spec (mk : String → Option DeviceInst) :
    (∀ address reg, Registry.containsKey reg address = true →
        DeviceManager.discovery_callback mk address reg = reg) ∧
    (∀ addrs reg, Registry.keysUnique reg →
        Registry.keysUnique (processCallbacks mk addrs reg)) := by
  constructor
  · intro address reg h
    simp [DeviceManager.discovery_callback, h]
  · intro addrs reg h
    exact keysUnique_process mk addrs reg h

/-- Witness for C7: a duplicate callback leaves a concrete registry
unchanged, and a concrete callback sequence with a repeated address yields
unique keys. -/
theorem discovery_dedup_spec_witness :
    DeviceManager.discovery_callback DeviceManager.make_device "AA"
        [("AA", some ⟨"AA"⟩)] = [("AA", some ⟨"AA"⟩)] ∧
    Registry.keysUnique
      (processCallbacks DeviceManager.make_device ["AA", "BB", "AA"] []) :=
  ⟨(discovery_dedup_spec DeviceManager.make_device).1 "AA"
      [("AA", some ⟨"AA"⟩)] (by decide),
   (discovery_dedup_spec DeviceManager.make_device).2 ["AA", "BB", "AA"] []
      (by simp [Registry.keysUnique])⟩

/-- C8: the pending-device counter.  (1) `Device.__init__` increments it by
one.  (2) On a state whose `_bleak_device` cache is cold, the first access
submits exactly one lookup, decrements the counter by exactly one, and
caches the outcome — success or not-found alike, and regardless of whether
the handle is later used.  (3) On a state whose cache is filled, an access
returns the cached outcome with the state unchanged: no further lookup, no
further decrement, however often it is repeated. -/
theorem pending_counter_spec (env : Env) (mac : String) (s : PyState) :
    ((Device.init mac s).2.pending_devices = s.pending_devices + 1) ∧
    (∀ dev : DeviceInst, s.bleakDeviceCache = none →
      Device.bleakDevice env dev s =
        (env.findResult dev.mac_address,
         { s with trace := s.trace ++ [.findDeviceCall dev.mac_address],
                  pending_devices := s.pending_devices - 1,
                  bleakDeviceCache := some (env.findResult dev.mac_address) })) ∧
    (∀ (dev : DeviceInst) (cached : Option BleakDevice),
      s.bleakDeviceCache = some cached →
      Device.bleakDevice env dev s = (cached, s)) := by
  refine ⟨rfl, ?_, ?_⟩
  · intro dev hd
    simp [Device.bleakDevice, hd, emit]
  · intro dev cached hd
    simp [Device.bleakDevice, hd]

/-- Witness for C8: increment on construction, single decrement on the
first (not-found) lookup, and an untouched state on a cached access. -/
theorem pending_counter_spec_witness :
    ((Device.init "AA:BB:CC:DD:EE:FF" s0W).2.pending_devices
        = s0W.pending_devices + 1) ∧
    Device.bleakDevice envErrW devW s0W =
      (envErrW.findResult devW.mac_address,
       { s0W with trace := s0W.trace ++ [.findDeviceCall devW.mac_address],
                  pending_devices := s0W.pending_devices - 1,
                  bleakDeviceCache :=
                    some (envErrW.findResult devW.mac_address) }) ∧
    Device.bleakDevice envOkW devW s1W = (some bdW, s1W) :=
  ⟨(pending_counter_spec envErrW "AA:BB:CC:DD:EE:FF" s0W).1,
   (pending_counter_spec envErrW "AA:BB:CC:DD:EE:FF" s0W).2.1 devW rfl,
   (pending_counter_spec envOkW "AA:BB:CC:DD:EE:FF" s1W).2.2 devW
      (some bdW) rfl⟩

/-- C3 (failing computation): with the factory returning `none` for an
address not yet tracked, `_discovery_callback` does add an entry for the
address — storing `None` under it — so `devices()` yields an absent value.
This contradicts the claim (and the `make_device` docstring, which says a
`None` return marks the device as not supported): the code stores the
factory result unconditionally. -/
theorem discovery_callback_stores_none :
    DeviceManager.discovery_callback (fun _ => none) "AA:BB:CC:DD:EE:FF" []
        = [("AA:BB:CC:DD:EE:FF", none)] ∧
    none ∈ DeviceManager.devicesValues
      (DeviceManager.discovery_callback (fun _ => none)
        "AA:BB:CC:DD:EE:FF" []) := by
  constructor
  · rfl
  · simp [DeviceManager.discovery_callback, DeviceManager.devicesValues,
          Registry.containsKey]

/-- C9 (counterexample): in the idle discovery state — no cancellation
signal, no scan task — `stop_discovery` is NOT a no-op: the coroutine's
`self._stop_scanning_event.set()` raises `AttributeError` on `None`, and
`run_blocking` re-raises it to the caller. -/
theorem stop_discovery_idle_raises :
    DeviceManager.stop_discovery (.ok ())
        { stopScanningEvent := none, scannerTask := none } =
      (.error (.attributeError "set"),
       { stopScanningEvent := none, scannerTask := none }) := rfl

/-- C9 (amended): calling `stop_discovery` with no cancellation signal
present (the idle state, whatever the rest of the state and whatever the
scan task would have reported) raises an `AttributeError` for the `set`
attribute of `None` and leaves the manager's state unchanged. -/
theorem stop_discovery_idle_spec (outcome : Except PyErr Unit)
    (st : MgrScanState) (hev : st.stopScanningEvent = none) :
    DeviceManager.stop_discovery outcome st =
      (.error (.attributeError "set"), st) := by
  simp [DeviceManager.stop_discovery, DeviceManager.stopDiscoveryCoro, hev]

/-- Witness for the amended C9 at a concrete idle state. -/
theorem stop_discovery_idle_spec_witness :
    DeviceManager.stop_discovery (.error (.bleakError 1))
        { stopScanningEvent := none, scannerTask := none } =
      (.error (.attributeError "set"),
       { stopScanningEvent := none, scannerTask := none }) :=
  stop_discovery_idle_spec (.error (.bleakError 1))
    { stopScanningEvent := none, scannerTask := none } rfl

/-- C10: the `_devices` registry is class-level state shared by all
`DeviceManager` instances (an instance carries no registry of its own).
For any two instances `m1` and `m2`, a device added through `m1`'s
discovery callback is subsequently yielded by `m2.devices()`: adding to one
manager's registry changes what every other manager observes. -/
theorem shared_registry_spec (m1 m2 : DeviceManagerInst)
    (mk : String → Option DeviceInst) (address : String) (d : DeviceInst)
    (cs : DeviceManagerClassState)
    (hnew : Registry.containsKey cs.devices address = false)
    (hmk : mk address = some d) :
    some d ∈ DeviceManager.devices m2
      (DeviceManager.discoveryCallbackOn m1 mk address cs) := by
  simp [DeviceManager.devices, DeviceManager.discoveryCallbackOn,
        DeviceManager.discovery_callback, DeviceManager.devicesValues,
        hnew, hmk]

/-- Witness for C10: two distinct concrete managers; an address discovered
through the first is observed through the second. -/
theorem shared_registry_spec_witness :
    some (⟨"AA:BB:CC:DD:EE:FF"⟩ : DeviceInst) ∈
      DeviceManager.devices ⟨"hci1"⟩
        (DeviceManager.discoveryCallbackOn ⟨"hci0"⟩
          DeviceManager.make_device "AA:BB:CC:DD:EE:FF" ⟨[]⟩) :=
  shared_registry_spec ⟨"hci0"⟩ ⟨"hci1"⟩ DeviceManager.make_device
    "AA:BB:CC:DD:EE:FF" ⟨"AA:BB:CC:DD:EE:FF"⟩ ⟨[]⟩ rfl rfl

end CometBlue
